import Mathlib

/-!
Verification development for the Tic-Tac-Toe frontend.

The definitions below are a shallow embedding of the JavaScript source:

* `checkWinner`, `winningLines` — the board evaluator of `GameBoard`
  (`src/components/GameBoard.js`).
* `localPostMove` / `localPostMoveV2` — the local-compute fallback branch of
  `safePostMove` in the two interactive `GameBoard` variants (the variant that
  passes snapshot arguments, and the closure-based variant whose next-player
  expression is `winner || newStatus === 'draw' ? currentPlayer : flip`).
* `handleSquareClick`, `resetGame`, `initSession` — the session state
  transitions of the snapshot-passing `GameBoard` variant.  Asynchronous remote
  calls are modelled by an explicit `Option GameResp` parameter: `some u` is a
  successful remote response with body `u`, `none` is a rejected request, which
  the code turns into the local fallback.  JavaScript falsy field defaults
  (`x || d`) on the adopted response are modelled with `Option.getD`.
* `createPlayer`, `createGame`, `getGame`, `postMove`, `getHistory` — the
  input-validation layer of the API client (`src/api.js`), returning
  `Except String ApiRequest`: a thrown validation `Error` on the left, the
  request that would be issued on the right.
* `normalizeRow`, `normalizeLeaderboard` — the leaderboard normalizer of
  `Sidebar.js`; `??` (nullish coalescing) is `Option.orElse`/`Option.getD`,
  JavaScript numeric truthiness is `jsTruthy`.
-/

/-- A player mark: the JavaScript strings `'X'` and `'O'`. -/
inductive Mark
  | X
  | O
  deriving DecidableEq, Repr

/-- `currentPlayer === 'X' ? 'O' : 'X'` — the inline player flip. -/
def flipMark : Mark → Mark
  | Mark.X => Mark.O
  | Mark.O => Mark.X

/-- Game status strings `'idle' | 'in-progress' | 'won' | 'draw'`. -/
inductive GStatus
  | idle
  | inProgress
  | won
  | draw
  deriving DecidableEq, Repr

/-- A board is the ordered list of cells; `none` is the JavaScript `null`. -/
abbrev Board := List (Option Mark)

/-- The `winningLines` array of `GameBoard`: 3 rows, 3 columns, 2 diagonals. -/
def winningLines : List (Nat × Nat × Nat) :=
  [(0, 1, 2), (3, 4, 5), (6, 7, 8),
   (0, 3, 6), (1, 4, 7), (2, 5, 8),
   (0, 4, 8), (2, 4, 6)]

/-- One iteration of the `checkWinner` loop body:
`if (b[a] && b[a] === b[c] && b[a] === b[d]) return b[a]`. -/
def lineWinner (b : Board) (l : Nat × Nat × Nat) : Option Mark :=
  match b.getD l.1 none with
  | none => none
  | some m =>
    if b.getD l.2.1 none = some m ∧ b.getD l.2.2 none = some m then some m
    else none

/-- Result of `checkWinner`: `'X' | 'O' | 'draw' | null`. -/
inductive Outcome
  | mark (m : Mark)
  | draw
  deriving DecidableEq, Repr

/-- The board evaluator `checkWinner` of `GameBoard`: first winning line in
order wins; otherwise draw when every cell is `'X'` or `'O'`; otherwise null. -/
def checkWinner (b : Board) : Option Outcome :=
  match winningLines.findSome? (lineWinner b) with
  | some m => some (Outcome.mark m)
  | none => if b.all Option.isSome then some Outcome.draw else none

/-- The game-state object shape used by remote responses and by the mock /
fallback values (`{id?, board?, currentPlayer?, status?, winner?}`); a `none`
field is an absent (or JavaScript-falsy) field.  The opaque `id` is omitted:
no claim mentions it. -/
structure GameResp where
  board : Option Board
  currentPlayer : Option Mark
  status : Option GStatus
  winner : Option Mark
  deriving DecidableEq, Repr

/-- The mock game minted by the `catch` branch of `safeCreateGame`. -/
def mockGame : GameResp :=
  { board := some (List.replicate 9 none)
    currentPlayer := some Mark.X
    status := some GStatus.inProgress
    winner := none }

/-- `safeCreateGame`: the remote game on success, the mock game on failure. -/
def safeCreateGame (remote : Option GameResp) : GameResp :=
  remote.getD mockGame

/-- The `catch` branch of `safePostMove` in the snapshot-passing `GameBoard`
variant: local computation from the snapshot board and player (the occupied
cell re-check reads the session status from the closure). -/
def localPostMove (localBoard : Board) (localPlayer : Mark)
    (sessionState : GStatus) (position : Nat) : GameResp :=
  if (localBoard.getD position none).isSome then
    { board := some localBoard
      currentPlayer := some localPlayer
      status := some sessionState
      winner := none }
  else
    let nextBoard := localBoard.set position (some localPlayer)
    let newStatus :=
      match checkWinner nextBoard with
      | some Outcome.draw => GStatus.draw
      | some (Outcome.mark _) => GStatus.won
      | none => GStatus.inProgress
    let winner :=
      match checkWinner nextBoard with
      | some (Outcome.mark m) => some m
      | _ => none
    { board := some nextBoard
      currentPlayer :=
        some (if newStatus = GStatus.inProgress then flipMark localPlayer
              else localPlayer)
      status := some newStatus
      winner := winner }

/-- The `catch` branch of `safePostMove` in the closure-based `GameBoard`
variant.  Its next-player line `winner || newStatus === 'draw' ? currentPlayer
: currentPlayer === 'X' ? 'O' : 'X'` parses, by JavaScript precedence, as
`(winner || newStatus === 'draw') ? currentPlayer : flip`. -/
def localPostMoveV2 (localBoard : Board) (localPlayer : Mark)
    (sessionState : GStatus) (position : Nat) : GameResp :=
  if (localBoard.getD position none).isSome then
    { board := some localBoard
      currentPlayer := some localPlayer
      status := some sessionState
      winner := none }
  else
    let nextBoard := localBoard.set position (some localPlayer)
    let newStatus :=
      match checkWinner nextBoard with
      | some Outcome.draw => GStatus.draw
      | some (Outcome.mark _) => GStatus.won
      | none => GStatus.inProgress
    let winner :=
      match checkWinner nextBoard with
      | some (Outcome.mark m) => some m
      | _ => none
    { board := some nextBoard
      currentPlayer :=
        some (if winner.isSome ∨ newStatus = GStatus.draw then localPlayer
              else flipMark localPlayer)
      status := some newStatus
      winner := winner }

/-- `safePostMove`: remote response on success, local fallback on failure. -/
def safePostMove (remote : Option GameResp) (localBoard : Board)
    (localPlayer : Mark) (sessionState : GStatus) (position : Nat) : GameResp :=
  remote.getD (localPostMove localBoard localPlayer sessionState position)

/-- A `moves` entry: `{ moveNumber, player, position }`. -/
structure MoveRec where
  moveNumber : Nat
  player : Mark
  position : Nat
  deriving DecidableEq, Repr

/-- The `GameBoard` component state relevant to the session: board,
`currentPlayer`, `status.state`, `status.winner`, `moves`, `isBusy`, `error`
(the error contents are irrelevant to the claims, so it is `Option Unit`). -/
structure Session where
  board : Board
  currentPlayer : Mark
  status : GStatus
  winner : Option Mark
  moves : List MoveRec
  isBusy : Bool
  error : Option Unit
  deriving DecidableEq, Repr

/-- `init` (the body of `startSession`): adopt the `safeCreateGame` result with
falsy-field fallbacks `g.board || empty`, `g.currentPlayer || 'X'`,
`g.status || 'in-progress'`, `g.winner || null`, and clear the move list. -/
def initSession (remote : Option GameResp) : Session :=
  let g := safeCreateGame remote
  { board := g.board.getD (List.replicate 9 none)
    currentPlayer := g.currentPlayer.getD Mark.X
    status := g.status.getD GStatus.inProgress
    winner := g.winner
    moves := []
    isBusy := false
    error := none }

/-- `handleSquareClick` of the snapshot-passing `GameBoard` variant.  Guards:
return unchanged while busy or on terminal status; then `setError(null)` and
`setIsBusy(true)`; return (with `finally` clearing busy) on an occupied cell;
otherwise adopt the `safePostMove` result with falsy-field fallbacks and append
the move record `{ moveNumber: prev.length + 1, player: snapshot, position }`. -/
def handleSquareClick (s : Session) (index : Nat) (remote : Option GameResp) :
    Session :=
  if s.isBusy then s
  else if s.status = GStatus.won ∨ s.status = GStatus.draw then s
  else if (s.board.getD index none).isSome then
    { s with error := none, isBusy := false }
  else
    let updated := safePostMove remote s.board s.currentPlayer s.status index
    let nextStatus := updated.status.getD GStatus.inProgress
    { board := updated.board.getD s.board
      currentPlayer :=
        updated.currentPlayer.getD
          (if nextStatus = GStatus.inProgress then flipMark s.currentPlayer
           else s.currentPlayer)
      status := nextStatus
      winner := updated.winner
      moves := s.moves ++
        [{ moveNumber := s.moves.length + 1, player := s.currentPlayer,
           position := index }]
      isBusy := false
      error := none }

/-- `resetGame`: no-op while busy, otherwise adopt a `safeCreateGame` result
exactly as `init` does (player identities are reused and do not affect the
session fields modelled here). -/
def resetGame (s : Session) (remote : Option GameResp) : Session :=
  if s.isBusy then s
  else
    let g := safeCreateGame remote
    { board := g.board.getD (List.replicate 9 none)
      currentPlayer := g.currentPlayer.getD Mark.X
      status := g.status.getD GStatus.inProgress
      winner := g.winner
      moves := []
      isBusy := false
      error := none }

/-- Replay a move log against an empty board: write each recorded mark at its
recorded cell index, in order. -/
def replayMoves (ms : List MoveRec) : Board :=
  ms.foldl (fun b m => b.set m.position (some m.player)) (List.replicate 9 none)

/-- Run a list of square clicks with every remote post-move request failing
(each click resolves through the local fallback). -/
def runClicksLocal (s : Session) (clicks : List Nat) : Session :=
  clicks.foldl (fun t i => handleSquareClick t i none) s

/-- A request the API client would issue: HTTP method and path. -/
structure ApiRequest where
  method : String
  path : String
  deriving DecidableEq, Repr

/-- JavaScript string truthiness of an optional string argument:
`undefined`/`null`/`''` are falsy. -/
def strPresent : Option String → Bool
  | none => false
  | some s => !s.isEmpty

/-- `createPlayer(name)`: `if (!name) throw new Error('Name is required')`,
then `POST /players`. -/
def createPlayer (name : Option String) : Except String ApiRequest :=
  if strPresent name then Except.ok { method := "POST", path := "/players" }
  else Except.error "Name is required"

/-- `createGame(playerXId, playerOId)`: both ids required, then `POST /games`. -/
def createGame (playerXId playerOId : Option String) :
    Except String ApiRequest :=
  if strPresent playerXId && strPresent playerOId then
    Except.ok { method := "POST", path := "/games" }
  else Except.error "Both playerXId and playerOId are required"

/-- `getGame(id)`: id required, then `GET /games/{id}`. -/
def getGame (id : Option String) : Except String ApiRequest :=
  if strPresent id then
    Except.ok { method := "GET", path := "/games/" ++ id.getD "" }
  else Except.error "Game ID is required"

/-- `postMove(gameId, position)`: game id required (falsy check), then
`position === undefined || position === null` rejected, then
`POST /games/{gameId}/moves`. -/
def postMove (gameId : Option String) (position : Option Int) :
    Except String ApiRequest :=
  if !strPresent gameId then Except.error "Game ID is required"
  else if position.isNone then Except.error "Position is required"
  else Except.ok { method := "POST", path := "/games/" ++ gameId.getD "" ++ "/moves" }

/-- `getHistory(gameId)`: game id required, then `GET /games/{gameId}/history`. -/
def getHistory (gameId : Option String) : Except String ApiRequest :=
  if strPresent gameId then
    Except.ok { method := "GET", path := "/games/" ++ gameId.getD "" ++ "/history" }
  else Except.error "Game ID is required"

/-- A raw leaderboard row as received from the backend: every field the
normalizer reads, `none` for an absent (`undefined`/`null`) field. -/
structure RawRow where
  id : Option String := none
  playerId : Option String := none
  name : Option String := none
  player : Option String := none
  username : Option String := none
  wins : Option Int := none
  win : Option Int := none
  w : Option Int := none
  losses : Option Int := none
  loss : Option Int := none
  l : Option Int := none
  draws : Option Int := none
  d : Option Int := none
  score : Option Int := none
  points : Option Int := none
  elo : Option Int := none
  deriving DecidableEq, Repr

/-- The canonical leaderboard row produced by `normalizeLeaderboard`. -/
structure LbRow where
  id : String
  name : String
  wins : Int
  losses : Int
  draws : Int
  score : Int
  deriving DecidableEq, Repr

/-- JavaScript numeric truthiness of an optional number: absent or `0` is
falsy. -/
def jsTruthy : Option Int → Bool
  | none => false
  | some n => n != 0

/-- The per-row body of `normalizeLeaderboard`: `??` chains are
`Option.orElse`, and the score default is
`r.score ?? r.points ?? r.elo ?? (r.wins ? r.wins * 3 + (r.draws ?? 0) : 0)`. -/
def normalizeRow (idx : Nat) (r : RawRow) : LbRow :=
  { id := ((r.id).orElse fun _ => r.playerId).getD ("row-" ++ toString idx)
    name :=
      (((r.name).orElse fun _ => r.player).orElse fun _ => r.username).getD
        "Unknown"
    wins := (((r.wins).orElse fun _ => r.win).orElse fun _ => r.w).getD 0
    losses := (((r.losses).orElse fun _ => r.loss).orElse fun _ => r.l).getD 0
    draws := ((r.draws).orElse fun _ => r.d).getD 0
    score :=
      (((r.score).orElse fun _ => r.points).orElse fun _ => r.elo).getD
        (if jsTruthy r.wins then r.wins.getD 0 * 3 + r.draws.getD 0 else 0) }

/-- The payload accepted by `normalizeLeaderboard`: `null`/`undefined`, a bare
array, or a wrapper object whose `items` field may or may not be an array. -/
inductive LbPayload
  | null
  | arr (rows : List RawRow)
  | wrapped (items : Option (List RawRow))

/-- `normalizeLeaderboard`: unwrap the payload and normalize each row with its
index. -/
def normalizeLeaderboard : LbPayload → List LbRow
  | LbPayload.null => []
  | LbPayload.arr rows => rows.mapIdx normalizeRow
  | LbPayload.wrapped (some rows) => rows.mapIdx normalizeRow
  | LbPayload.wrapped none => []

/-! ### Helper lemmas -/

theorem flipMark_ne (p : Mark) : flipMark p ≠ p := by
  cases p <;> simp [flipMark]

/-- A line holds three equal non-empty cells of mark `m`. -/
abbrev lineFilled (b : Board) (l : Nat × Nat × Nat) (m : Mark) : Prop :=
  b.getD l.1 none = some m ∧ b.getD l.2.1 none = some m ∧
    b.getD l.2.2 none = some m

theorem lineWinner_eq_some_iff (b : Board) (l : Nat × Nat × Nat) (m : Mark) :
    lineWinner b l = some m ↔ lineFilled b l m := by
  unfold lineWinner lineFilled
  rcases h : b.getD l.1 none with _ | m1
  · simp [h]
  · simp only [h]
    by_cases hc : b.getD l.2.1 none = some m1 ∧ b.getD l.2.2 none = some m1
    · rw [if_pos hc]
      constructor
      · intro hm
        have hm1 : m1 = m := by injection hm
        subst hm1
        exact ⟨rfl, hc.1, hc.2⟩
      · intro hf
        exact hf.1
    · rw [if_neg hc]
      constructor
      · intro hm
        simp at hm
      · intro hf
        have hm1 : m1 = m := by injection hf.1
        subst hm1
        exact absurd ⟨hf.2.1, hf.2.2⟩ hc

theorem checkWinner_of_filled (b : Board) (m : Mark)
    (h1 : ∃ l ∈ winningLines, lineFilled b l m)
    (h2 : ∀ l ∈ winningLines, ∀ m2 : Mark, lineFilled b l m2 → m2 = m) :
    checkWinner b = some (Outcome.mark m) := by
  unfold checkWinner
  rcases hfs : winningLines.findSome? (lineWinner b) with _ | m2
  · rcases h1 with ⟨l0, hl0, hf0⟩
    have hnone := List.findSome?_eq_none_iff.mp hfs l0 hl0
    rw [(lineWinner_eq_some_iff b l0 m).mpr hf0] at hnone
    cases hnone
  · rcases List.exists_of_findSome?_eq_some hfs with ⟨l0, hl0, hf0⟩
    have hm2 : m2 = m := h2 l0 hl0 m2 ((lineWinner_eq_some_iff b l0 m2).mp hf0)
    rw [hm2]

theorem checkWinner_of_no_line (b : Board)
    (h : ∀ l ∈ winningLines, ∀ m : Mark, ¬ lineFilled b l m) :
    checkWinner b = if b.all Option.isSome then some Outcome.draw else none := by
  unfold checkWinner
  have hfs : winningLines.findSome? (lineWinner b) = none := by
    rw [List.findSome?_eq_none_iff]
    intro l hl
    rcases hv : lineWinner b l with _ | m
    · rfl
    · exact absurd ((lineWinner_eq_some_iff b l m).mp hv) (h l hl m)
  rw [hfs]

theorem getD_isSome_ne {b : Board} {i : Nat} (he : b.getD i none = none) :
    ¬((b.getD i none).isSome = true) := by
  rw [he]
  simp

theorem handleSquareClick_accept (s : Session) (i : Nat) (r : Option GameResp)
    (hb : s.isBusy = false)
    (ht : ¬(s.status = GStatus.won ∨ s.status = GStatus.draw))
    (he : s.board.getD i none = none) :
    handleSquareClick s i r =
      (let updated := safePostMove r s.board s.currentPlayer s.status i
       let nextStatus := updated.status.getD GStatus.inProgress
       { board := updated.board.getD s.board
         currentPlayer :=
           updated.currentPlayer.getD
             (if nextStatus = GStatus.inProgress then flipMark s.currentPlayer
              else s.currentPlayer)
         status := nextStatus
         winner := updated.winner
         moves := s.moves ++
           [{ moveNumber := s.moves.length + 1, player := s.currentPlayer,
              position := i }]
         isBusy := false
         error := none }) := by
  unfold handleSquareClick
  rw [if_neg (by simp [hb]), if_neg ht, if_neg (getD_isSome_ne he)]

theorem localPostMove_status_player (b : Board) (p : Mark) (st : GStatus)
    (i : Nat) (he : b.getD i none = none) :
    ((localPostMove b p st i).status = some GStatus.inProgress ∧
      (localPostMove b p st i).currentPlayer = some (flipMark p)) ∨
    (((localPostMove b p st i).status = some GStatus.won ∨
        (localPostMove b p st i).status = some GStatus.draw) ∧
      (localPostMove b p st i).currentPlayer = some p) := by
  unfold localPostMove
  rw [if_neg (getD_isSome_ne he)]
  rcases hcw : checkWinner (b.set i (some p)) with _ | oc
  · left
    simp [hcw]
  · rcases oc with m | _
    · right
      simp [hcw]
    · right
      simp [hcw]

theorem localPostMoveV2_status_player (b : Board) (p : Mark) (st : GStatus)
    (i : Nat) (he : b.getD i none = none) :
    ((localPostMoveV2 b p st i).status = some GStatus.inProgress ∧
      (localPostMoveV2 b p st i).currentPlayer = some (flipMark p)) ∨
    (((localPostMoveV2 b p st i).status = some GStatus.won ∨
        (localPostMoveV2 b p st i).status = some GStatus.draw) ∧
      (localPostMoveV2 b p st i).currentPlayer = some p) := by
  unfold localPostMoveV2
  rw [if_neg (getD_isSome_ne he)]
  rcases hcw : checkWinner (b.set i (some p)) with _ | oc
  · left
    simp [hcw]
  · rcases oc with m | _
    · right
      simp [hcw]
    · right
      simp [hcw]

theorem handleSquareClick_local_accept (s : Session) (i : Nat)
    (hb : s.isBusy = false)
    (ht : ¬(s.status = GStatus.won ∨ s.status = GStatus.draw))
    (he : s.board.getD i none = none) :
    (handleSquareClick s i none).board = s.board.set i (some s.currentPlayer) ∧
    (handleSquareClick s i none).moves = s.moves ++
      [{ moveNumber := s.moves.length + 1, player := s.currentPlayer,
         position := i }] ∧
    (handleSquareClick s i none).isBusy = false := by
  rw [handleSquareClick_accept s i none hb ht he]
  simp only [safePostMove, Option.getD_none]
  unfold localPostMove
  rw [if_neg (getD_isSome_ne he)]
  simp

/-! ### Claim theorems -/

/-- Claim C1: for every submitMove call whose remote post-move request fails,
the local fallback yields a mark-to-move equal to the flip of the snapshot mark
exactly when the derived status is in-progress, and keeps the snapshot mark on
a won or draw outcome — in the snapshot-passing variant (stated on the session
after `handleSquareClick` with a failing remote) and in the closure-based
variant (stated on the `localPostMoveV2` result). -/
theorem c1_fallback_mark_flip (s : Session) (i : Nat)
    (b2 : Board) (p2 : Mark) (st2 : GStatus) (i2 : Nat)
    (hb : s.isBusy = false)
    (ht : ¬(s.status = GStatus.won ∨ s.status = GStatus.draw))
    (he : s.board.getD i none = none)
    (he2 : b2.getD i2 none = none) :
    (((handleSquareClick s i none).currentPlayer = flipMark s.currentPlayer ↔
        (handleSquareClick s i none).status = GStatus.inProgress) ∧
      ((handleSquareClick s i none).status = GStatus.won ∨
          (handleSquareClick s i none).status = GStatus.draw →
        (handleSquareClick s i none).currentPlayer = s.currentPlayer)) ∧
    (((localPostMoveV2 b2 p2 st2 i2).currentPlayer = some (flipMark p2) ↔
        (localPostMoveV2 b2 p2 st2 i2).status = some GStatus.inProgress) ∧
      ((localPostMoveV2 b2 p2 st2 i2).status = some GStatus.won ∨
          (localPostMoveV2 b2 p2 st2 i2).status = some GStatus.draw →
        (localPostMoveV2 b2 p2 st2 i2).currentPlayer = some p2)) := by
  constructor
  · rw [handleSquareClick_accept s i none hb ht he]
    simp only [safePostMove, Option.getD_none]
    rcases localPostMove_status_player s.board s.currentPlayer s.status i he
      with ⟨hst, hpl⟩ | ⟨hst, hpl⟩
    · simp [hst, hpl]
    · rcases hst with hst | hst <;>
        simp [hst, hpl, (flipMark_ne s.currentPlayer).symm]
  · rcases localPostMoveV2_status_player b2 p2 st2 i2 he2
      with ⟨hst, hpl⟩ | ⟨hst, hpl⟩
    · simp [hst, hpl]
    · rcases hst with hst | hst <;>
        simp [hst, hpl, (flipMark_ne p2).symm]

deriving instance Fintype for Mark

/-- The session right after a fully-offline `startSession` (both remote calls
failed, the game was minted locally). -/
def freshLocalSession : Session := initSession none

/-- Claim C1 witness: on the fresh local session, an offline move at cell 0. -/
theorem c1_fallback_mark_flip_witness :
    (handleSquareClick freshLocalSession 0 none).currentPlayer =
        flipMark freshLocalSession.currentPlayer ↔
      (handleSquareClick freshLocalSession 0 none).status =
        GStatus.inProgress :=
  (c1_fallback_mark_flip freshLocalSession 0 freshLocalSession.board Mark.X
    GStatus.inProgress 0 rfl (by decide) (by decide) (by decide)).1.1

/-- Board with an X three-in-a-row on row 0 and an O three-in-a-row on row 1. -/
def doubleLineBoard : Board :=
  [some Mark.X, some Mark.X, some Mark.X,
   some Mark.O, some Mark.O, some Mark.O,
   none, none, none]

/-- Claim C2 counterexample: `doubleLineBoard` contains a completed
three-in-a-row of O on line (3,4,5), yet `checkWinner` does not return O as
winner (it returns the first matching line's mark, X) — so the evaluator does
not return "that line's mark" for every completed line of every board. -/
theorem c2_board_evaluator_counterexample :
    doubleLineBoard.length = 9 ∧
    (3, 4, 5) ∈ winningLines ∧
    lineFilled doubleLineBoard (3, 4, 5) Mark.O ∧
    checkWinner doubleLineBoard ≠ some (Outcome.mark Mark.O) := by
  decide

/-- Claim C2 (amended): for every 9-cell board, (1) if some winning line is
completed with mark `m` and every completed winning line carries that same
mark `m` (in particular whenever only one mark has a completed line),
`checkWinner` returns `m` as winner regardless of the remaining cells; (2) on
a board with no completed line, `checkWinner` returns draw when the board is
fully filled and nothing when some cell is empty. -/
theorem c2_board_evaluator_amended (b : Board) (m : Mark) (_hb : b.length = 9) :
    ((∃ l ∈ winningLines, lineFilled b l m) →
      (∀ l ∈ winningLines, ∀ m2 : Mark, lineFilled b l m2 → m2 = m) →
      checkWinner b = some (Outcome.mark m)) ∧
    ((∀ l ∈ winningLines, ∀ m2 : Mark, ¬ lineFilled b l m2) →
      (b.all Option.isSome = true → checkWinner b = some Outcome.draw) ∧
      (b.all Option.isSome = false → checkWinner b = none)) := by
  refine ⟨fun h1 h2 => checkWinner_of_filled b m h1 h2, fun h => ?_⟩
  have hcw := checkWinner_of_no_line b h
  constructor
  · intro hall
    rw [hcw, hall]
    rfl
  · intro hall
    rw [hcw, hall]
    rfl

/-- Board with only an X three-in-a-row (rest empty). -/
def xRowBoard : Board :=
  [some Mark.X, some Mark.X, some Mark.X, none, none, none, none, none, none]

/-- A full board with no three-in-a-row. -/
def fullDrawBoard : Board :=
  [some Mark.X, some Mark.O, some Mark.X,
   some Mark.X, some Mark.O, some Mark.O,
   some Mark.O, some Mark.X, some Mark.X]

/-- A partially filled board with no three-in-a-row. -/
def partialBoard : Board :=
  [some Mark.X, some Mark.O, none, none, none, none, none, none, none]

/-- Claim C2 witness: the three amended clauses at concrete boards. -/
theorem c2_board_evaluator_witness :
    checkWinner xRowBoard = some (Outcome.mark Mark.X) ∧
    checkWinner fullDrawBoard = some Outcome.draw ∧
    checkWinner partialBoard = none :=
  ⟨(c2_board_evaluator_amended xRowBoard Mark.X (by decide)).1 (by decide)
      (by decide),
   ((c2_board_evaluator_amended fullDrawBoard Mark.X (by decide)).2
      (by decide)).1 (by decide),
   ((c2_board_evaluator_amended partialBoard Mark.X (by decide)).2
      (by decide)).2 (by decide)⟩

theorem bool_not_true {b : Bool} (h : ¬(b = true)) : b = false := by
  cases b
  · rfl
  · exact absurd rfl h

theorem click_preserves_replay (s : Session) (i : Nat)
    (h : replayMoves s.moves = s.board) :
    replayMoves (handleSquareClick s i none).moves =
      (handleSquareClick s i none).board := by
  by_cases hb : s.isBusy = true
  · unfold handleSquareClick
    rw [if_pos hb]
    exact h
  · have hb2 : s.isBusy = false := bool_not_true hb
    by_cases ht : s.status = GStatus.won ∨ s.status = GStatus.draw
    · unfold handleSquareClick
      rw [if_neg hb, if_pos ht]
      exact h
    · by_cases ho : (s.board.getD i none).isSome = true
      · unfold handleSquareClick
        rw [if_neg hb, if_neg ht, if_pos ho]
        exact h
      · have he : s.board.getD i none = none := by
          rcases hv : s.board.getD i none with _ | m
          · rfl
          · rw [hv] at ho
            simp at ho
        obtain ⟨hbd, hmv, _⟩ := handleSquareClick_local_accept s i hb2 ht he
        rw [hbd, hmv]
        unfold replayMoves at h ⊢
        rw [List.foldl_append, h]
        rfl

/-- The remote post-move response used in the C3 counterexample: the adopted
board comes back verbatim from the remote authority and happens to be empty. -/
def remoteEmptyBoardResp : GameResp :=
  { board := some (List.replicate 9 none)
    currentPlayer := some Mark.O
    status := some GStatus.inProgress
    winner := none }

/-- Claim C3 counterexample: an accepted move whose board was adopted verbatim
from the remote authority's response; a move record is appended, but replaying
the move log does not reproduce the adopted board. -/
theorem c3_replay_counterexample :
    (handleSquareClick freshLocalSession 0 (some remoteEmptyBoardResp)).moves =
      [{ moveNumber := 1, player := Mark.X, position := 0 }] ∧
    replayMoves
        (handleSquareClick freshLocalSession 0
          (some remoteEmptyBoardResp)).moves ≠
      (handleSquareClick freshLocalSession 0 (some remoteEmptyBoardResp)).board := by
  decide

/-- Claim C3 (amended): replaying the session's move log in order against an
empty board reproduces the session's current board exactly, for every sequence
of submitMove calls since the last fully-local session (re)creation in which
each move resolved through the local fallback (remote post-move failing); a
board adopted verbatim from a remote response need not satisfy the invariant. -/
theorem c3_replay_amended (clicks : List Nat) :
    replayMoves (runClicksLocal freshLocalSession clicks).moves =
      (runClicksLocal freshLocalSession clicks).board := by
  suffices hgen : ∀ s : Session, replayMoves s.moves = s.board →
      replayMoves (runClicksLocal s clicks).moves =
        (runClicksLocal s clicks).board by
    apply hgen
    decide
  induction clicks with
  | nil =>
    intro s h
    simpa [runClicksLocal] using h
  | cons c cs ih =>
    intro s h
    have h2 := click_preserves_replay s c h
    simpa [runClicksLocal] using ih _ h2

/-- A remote create-game response describing an already-won game. -/
def wonGameResp : GameResp :=
  { board := some (List.replicate 9 (some Mark.X))
    currentPlayer := some Mark.O
    status := some GStatus.won
    winner := some Mark.X }

/-- Claim C4 counterexample: a completed `startSession()` whose game came from
the remote authority adopts the remote fields verbatim, so the resulting
session is not in-progress, not empty, and not X to move. -/
theorem c4_start_session_counterexample :
    (initSession (some wonGameResp)).status ≠ GStatus.inProgress ∧
    (initSession (some wonGameResp)).board ≠ List.replicate 9 none ∧
    (initSession (some wonGameResp)).currentPlayer ≠ Mark.X := by
  decide

/-- Claim C4 (amended): after every completed `startSession()` the move log is
empty; and whenever the game came from the local-mint fallback — or the remote
response omits the board, current-player and status fields — the session
additionally has status in-progress, an all-empty 9-cell board, and mark X to
move. -/
theorem c4_start_session_amended (r : Option GameResp) :
    (initSession r).moves = [] ∧
    (r = none →
      (initSession r).status = GStatus.inProgress ∧
      (initSession r).board = List.replicate 9 none ∧
      (initSession r).currentPlayer = Mark.X) ∧
    (∀ g : GameResp, r = some g → g.board = none → g.currentPlayer = none →
      g.status = none →
      (initSession r).status = GStatus.inProgress ∧
      (initSession r).board = List.replicate 9 none ∧
      (initSession r).currentPlayer = Mark.X) := by
  refine ⟨rfl, ?_, ?_⟩
  · rintro rfl
    exact ⟨rfl, rfl, rfl⟩
  · rintro g rfl hgb hgc hgs
    simp [initSession, safeCreateGame, hgb, hgc, hgs]

/-- Claim C4 witness: the fully-local fallback start. -/
theorem c4_start_session_amended_witness :
    (initSession none).status = GStatus.inProgress ∧
    (initSession none).board = List.replicate 9 none ∧
    (initSession none).currentPlayer = Mark.X :=
  (c4_start_session_amended none).2.1 rfl

/-- Claim C5: a `submitMove` call made while the session is busy, while the
status is won or draw, or while the target cell is occupied is a no-op — no
move record is appended and board, mark-to-move and status are unchanged. -/
theorem c5_reject_is_frame (s : Session) (i : Nat) (r : Option GameResp)
    (h : s.isBusy = true ∨ s.status = GStatus.won ∨ s.status = GStatus.draw ∨
      (s.board.getD i none).isSome = true) :
    (handleSquareClick s i r).moves = s.moves ∧
    (handleSquareClick s i r).board = s.board ∧
    (handleSquareClick s i r).currentPlayer = s.currentPlayer ∧
    (handleSquareClick s i r).status = s.status := by
  unfold handleSquareClick
  by_cases hb : s.isBusy = true
  · rw [if_pos hb]
    exact ⟨rfl, rfl, rfl, rfl⟩
  · rw [if_neg hb]
    by_cases ht : s.status = GStatus.won ∨ s.status = GStatus.draw
    · rw [if_pos ht]
      exact ⟨rfl, rfl, rfl, rfl⟩
    · rw [if_neg ht]
      by_cases ho : (s.board.getD i none).isSome = true
      · rw [if_pos ho]
        exact ⟨rfl, rfl, rfl, rfl⟩
      · rcases h with h | h | h | h
        · exact absurd h hb
        · exact absurd (Or.inl h) ht
        · exact absurd (Or.inr h) ht
        · exact absurd h ho

/-- A session in a won terminal state. -/
def wonSession : Session :=
  { board := xRowBoard
    currentPlayer := Mark.O
    status := GStatus.won
    winner := some Mark.X
    moves := [{ moveNumber := 1, player := Mark.X, position := 0 }]
    isBusy := false
    error := none }

/-- Claim C5 witness: a click on a terminal (won) session changes nothing. -/
theorem c5_reject_is_frame_witness :
    (handleSquareClick wonSession 3 none).moves = wonSession.moves ∧
    (handleSquareClick wonSession 3 none).board = wonSession.board ∧
    (handleSquareClick wonSession 3 none).currentPlayer =
      wonSession.currentPlayer ∧
    (handleSquareClick wonSession 3 none).status = wonSession.status :=
  c5_reject_is_frame wonSession 3 none (Or.inr (Or.inl rfl))

/-- Claim C6: while the busy flag is set by an outstanding operation, a
`submitMove` or reset/new-game call returns immediately with the session
unchanged (it is never queued), so no two mutating operations interleave. -/
theorem c6_busy_mutual_exclusion (s : Session) (i : Nat) (r g : Option GameResp)
    (h : s.isBusy = true) :
    handleSquareClick s i r = s ∧ resetGame s g = s := by
  constructor
  · unfold handleSquareClick
    rw [if_pos h]
  · unfold resetGame
    rw [if_pos h]

/-- A session with an operation in flight. -/
def busySession : Session :=
  { board := List.replicate 9 none
    currentPlayer := Mark.X
    status := GStatus.inProgress
    winner := none
    moves := []
    isBusy := true
    error := none }

/-- Claim C6 witness: both mutating calls are no-ops on a busy session. -/
theorem c6_busy_mutual_exclusion_witness :
    handleSquareClick busySession 0 none = busySession ∧
    resetGame busySession none = busySession :=
  c6_busy_mutual_exclusion busySession 0 none none rfl

/-- A remote post-move response carrying a malformed (empty-array) board. -/
def shortBoardResp : GameResp :=
  { board := some []
    currentPlayer := none
    status := none
    winner := none }

/-- Claim C7 counterexample: a move whose remote response carries a malformed
board is adopted verbatim, leaving the session with a board that no longer has
9 cells. -/
theorem c7_wellformed_counterexample :
    freshLocalSession.board.length = 9 ∧
    (handleSquareClick freshLocalSession 0 (some shortBoardResp)).board.length
      ≠ 9 := by
  decide

theorem click_local_board_shape (s : Session) (i : Nat) :
    (handleSquareClick s i none).board = s.board ∨
    ((handleSquareClick s i none).board = s.board.set i (some s.currentPlayer) ∧
      s.board.getD i none = none) := by
  by_cases hb : s.isBusy = true
  · left
    unfold handleSquareClick
    rw [if_pos hb]
  · have hb2 : s.isBusy = false := bool_not_true hb
    by_cases ht : s.status = GStatus.won ∨ s.status = GStatus.draw
    · left
      unfold handleSquareClick
      rw [if_neg hb, if_pos ht]
    · by_cases ho : (s.board.getD i none).isSome = true
      · left
        unfold handleSquareClick
        rw [if_neg hb, if_neg ht, if_pos ho]
      · have he : s.board.getD i none = none := by
          rcases hv : s.board.getD i none with _ | m
          · rfl
          · rw [hv] at ho
            simp at ho
        right
        exact ⟨(handleSquareClick_local_accept s i hb2 ht he).1, he⟩

/-- Claim C7 (amended): every locally-resolved Session Engine operation
preserves board well-formedness — a 9-cell board stays 9 cells long, no
occupied cell is ever cleared or overwritten by a locally-resolved
`submitMove`, and a locally-resolved reset yields a 9-cell board; a move that
adopts a remote board verbatim preserves well-formedness only if the remote
board does. -/
theorem c7_wellformed_amended (s : Session) (i : Nat)
    (hlen : s.board.length = 9) :
    (handleSquareClick s i none).board.length = 9 ∧
    (∀ j : Nat, ∀ m : Mark, s.board.getD j none = some m →
      (handleSquareClick s i none).board.getD j none = some m) ∧
    (resetGame s none).board.length = 9 := by
  refine ⟨?_, ?_, ?_⟩
  · rcases click_local_board_shape s i with hbd | ⟨hbd, _⟩
    · rw [hbd]
      exact hlen
    · rw [hbd]
      simp [hlen]
  · intro j m hj
    rcases click_local_board_shape s i with hbd | ⟨hbd, he⟩
    · rw [hbd]
      exact hj
    · rw [hbd]
      by_cases hij : i = j
      · subst hij
        rw [he] at hj
        cases hj
      · simpa [List.getD, List.getElem?_set_ne hij] using hj
  · unfold resetGame
    by_cases hb : s.isBusy = true
    · rw [if_pos hb]
      exact hlen
    · rw [if_neg hb]
      simp [safeCreateGame, mockGame]

/-- Claim C7 witness: the amended preservation at the fresh local session. -/
theorem c7_wellformed_amended_witness :
    (handleSquareClick freshLocalSession 0 none).board.length = 9 :=
  (c7_wellformed_amended freshLocalSession 0 (by decide)).1

/-- Claim C8: every Remote Client operation invoked with a missing required
input fails with the validation error surfaced to the caller, and no request
is constructed (the `Except.ok` request value exists only on the success
path). -/
theorem c8_validation_rejects :
    (∀ name : Option String, strPresent name = false →
      createPlayer name = Except.error "Name is required") ∧
    (∀ x o : Option String, strPresent x = false ∨ strPresent o = false →
      createGame x o =
        Except.error "Both playerXId and playerOId are required") ∧
    (∀ id : Option String, strPresent id = false →
      getGame id = Except.error "Game ID is required") ∧
    (∀ g : Option String, ∀ p : Option Int, strPresent g = false →
      postMove g p = Except.error "Game ID is required") ∧
    (∀ g : Option String, strPresent g = true →
      postMove g none = Except.error "Position is required") ∧
    (∀ g : Option String, strPresent g = false →
      getHistory g = Except.error "Game ID is required") := by
  refine ⟨?_, ?_, ?_, ?_, ?_, ?_⟩
  · intro name hn
    simp [createPlayer, hn]
  · intro x o hxo
    rcases hxo with hx | ho
    · simp [createGame, hx]
    · simp [createGame, ho]
  · intro id hi
    simp [getGame, hi]
  · intro g p hg
    simp [postMove, hg]
  · intro g hg
    simp [postMove, hg]
  · intro g hg
    simp [getHistory, hg]

/-- Claim C8 witness: each operation rejected at a concrete missing input. -/
theorem c8_validation_rejects_witness :
    createPlayer none = Except.error "Name is required" ∧
    createGame none (some "p2") =
      Except.error "Both playerXId and playerOId are required" ∧
    getGame none = Except.error "Game ID is required" ∧
    postMove none (some 4) = Except.error "Game ID is required" ∧
    postMove (some "g1") none = Except.error "Position is required" ∧
    getHistory none = Except.error "Game ID is required" :=
  ⟨c8_validation_rejects.1 none rfl,
   c8_validation_rejects.2.1 none (some "p2") (Or.inl rfl),
   c8_validation_rejects.2.2.1 none rfl,
   c8_validation_rejects.2.2.2.1 none (some 4) rfl,
   c8_validation_rejects.2.2.2.2.1 (some "g1") (by decide),
   c8_validation_rejects.2.2.2.2.2 none rfl⟩

/-- A leaderboard row with zero wins and two draws and no explicit score. -/
def bobRow : RawRow := { name := some "Bob", wins := some 0, draws := some 2 }

/-- Claim C9 counterexample: for the row `{name:"Bob", wins:0, draws:2}` the
payload supplies no explicit score, yet normalization does not derive
`wins*3 + draws = 2` — zero wins short-circuits the derivation to 0. -/
theorem c9_score_counterexample :
    bobRow.score = none ∧ bobRow.points = none ∧ bobRow.elo = none ∧
    (normalizeRow 0 bobRow).wins = 0 ∧
    (normalizeRow 0 bobRow).draws = 2 ∧
    (normalizeRow 0 bobRow).score ≠
      (normalizeRow 0 bobRow).wins * 3 + (normalizeRow 0 bobRow).draws := by
  decide

/-- The scenario row `{name:"Ann", wins:3, draws:1}`. -/
def annRow : RawRow := { name := some "Ann", wins := some 3, draws := some 1 }

/-- Claim C9 (amended): when a leaderboard row supplies no explicit score
(`score`, `points`, `elo` all absent), normalization derives
`score = wins*3 + draws` deterministically for every row whose `wins` field is
present and non-zero; a row with zero (or absent) wins instead gets score 0.
In particular `[{name:"Ann", wins:3, draws:1}]` normalizes to
`{id:"row-0", name:"Ann", wins:3, losses:0, draws:1, score:10}`. -/
theorem c9_score_amended :
    normalizeLeaderboard (LbPayload.arr [annRow]) =
      [{ id := "row-0", name := "Ann", wins := 3, losses := 0, draws := 1,
         score := 10 }] ∧
    (∀ r : RawRow, ∀ idx : Nat, r.score = none → r.points = none →
      r.elo = none → jsTruthy r.wins = true →
      (normalizeRow idx r).score = r.wins.getD 0 * 3 + r.draws.getD 0) := by
  constructor
  · decide
  · intro r idx hs hp he hw
    simp [normalizeRow, hs, hp, he, hw]

/-- Claim C9 witness: the derivation applied to the Ann row. -/
theorem c9_score_amended_witness :
    (normalizeRow 0 annRow).score = annRow.wins.getD 0 * 3 + annRow.draws.getD 0 :=
  c9_score_amended.2 annRow 0 rfl rfl rfl (by decide)

/-- Claim C10: in the snapshot-passing `GameBoard` variant, a click on an
occupied cell that passes the busy and terminal-status guards ends with the
stored error cleared to null and the busy flag back off, while board, current
player, status, winner and move log are all unchanged. -/
theorem c10_occupied_click_clears_error (s : Session) (i : Nat)
    (r : Option GameResp)
    (hb : s.isBusy = false)
    (ht : ¬(s.status = GStatus.won ∨ s.status = GStatus.draw))
    (ho : (s.board.getD i none).isSome = true) :
    handleSquareClick s i r = { s with error := none, isBusy := false } := by
  unfold handleSquareClick
  rw [if_neg (by simp [hb]), if_neg ht, if_pos ho]

/-- A session displaying an error from an earlier failure, cell 0 occupied. -/
def erroredSession : Session :=
  { board := [some Mark.X, none, none, none, none, none, none, none, none]
    currentPlayer := Mark.O
    status := GStatus.inProgress
    winner := none
    moves := [{ moveNumber := 1, player := Mark.X, position := 0 }]
    isBusy := false
    error := some () }

/-- Claim C10 witness: clicking the occupied cell 0 erases the shown error. -/
theorem c10_occupied_click_clears_error_witness :
    handleSquareClick erroredSession 0 none =
      { erroredSession with error := none, isBusy := false } :=
  c10_occupied_click_clears_error erroredSession 0 none rfl (by decide) rfl
